import Mathlib

/-!
Shallow embedding of the `server` package of wrale-fleet-metal.

The repository contains two variants of the `Server` type; this development
follows the complete variant (the one wiring a `secure` tamper manager,
whose `Run` compiles: the other variant uses `time.Second` without importing
`time`).  The embedded functions are `New`, `Run`, `handleHealth` and
`handleStatus`, translated statement by statement from the Go source.

Conventions of the embedding:
* Go errors are `Option String` (`none` = nil, `some msg` = the error's
  message; `fmt.Errorf` with `%w` becomes string concatenation).
* `time.Time` is a `Nat` of nanoseconds since the epoch; the zero `time.Time`
  (`IsZero`) is `0`, and `time.Now()` is an input `now : Nat` to the handler.
* Go `float64` sensor fields undergo no arithmetic in this package (they are
  only copied from a monitor snapshot into the response), so they are carried
  as `Int` values; `bool`/`int`/`string` fields keep their types.
* The external collaborators (gpio / power / thermal / secure constructors,
  the monitor loops, `ListenAndServe`, `Shutdown`) are opaque: their results
  are inputs to the embedded function, and the embedding records which of
  them the code invokes, in order, as an explicit event trace.
-/

namespace FleetMetal

/-- The `Config` struct of the server package. -/
structure Config where
  DeviceID : String
  HTTPAddr : String
deriving DecidableEq, Repr

/-- The embedded `Server`: its configuration fields and the `started` flag.
The monitor handles and the `http.Server` are opaque collaborators and are
not part of the embedded state (their observable results are inputs to
`Run` / `handleStatus`). -/
structure Server where
  deviceID : String
  httpAddr : String
  started : Bool
deriving DecidableEq, Repr

/-- The subsystems whose constructors `New` invokes. -/
inductive Subsystem
  | gpio
  | power
  | thermal
  | security
deriving DecidableEq, Repr

/-- Results of the four external constructors `gpio.New`, `power.New`,
`thermal.New`, `secure.New`: `none` means the constructor succeeds,
`some e` that it returns the error `e`. -/
structure BuildEnv where
  gpioNew : Option String
  powerNew : Option String
  thermalNew : Option String
  securityNew : Option String
deriving DecidableEq, Repr

/-- What a call to `New` produces: the constructors it invoked (in source
order), and its two return values (`*Server`, `error`). -/
structure NewResult where
  invoked : List Subsystem
  server : Option Server
  error : Option String
deriving DecidableEq, Repr

/-- `New` from the Go source: validates `cfg.DeviceID`, then constructs
GPIO, power, thermal and security in that order, returning on the first
failure with a wrapped error and a nil server; on success returns the
`Server` value with `started` at its zero value `false`. -/
def New (cfg : Config) (env : BuildEnv) : NewResult :=
  if cfg.DeviceID = "" then
    ⟨[], none, some "device ID is required"⟩
  else
    match env.gpioNew with
    | some e => ⟨[.gpio], none, some ("failed to initialize GPIO: " ++ e)⟩
    | none =>
      match env.powerNew with
      | some e =>
          ⟨[.gpio, .power], none,
            some ("failed to initialize power management: " ++ e)⟩
      | none =>
        match env.thermalNew with
        | some e =>
            ⟨[.gpio, .power, .thermal], none,
              some ("failed to initialize thermal management: " ++ e)⟩
        | none =>
          match env.securityNew with
          | some e =>
              ⟨[.gpio, .power, .thermal, .security], none,
                some ("failed to initialize security management: " ++ e)⟩
          | none =>
              ⟨[.gpio, .power, .thermal, .security],
                some ⟨cfg.DeviceID, cfg.HTTPAddr, false⟩, none⟩

/-- The background tasks `Run` spawns with `go`. -/
inductive Task
  | powerMonitor
  | thermalMonitor
  | securityMonitor
  | httpListener
deriving DecidableEq, Repr

/-- The observable steps of a `Run` call, in program order: spawning a
background task, blocking on `<-ctx.Done()`, and calling
`httpServer.Shutdown` with a timeout (in seconds). -/
inductive REvent
  | spawn (t : Task)
  | waitCancel
  | shutdownCall (timeoutSecs : Nat)
deriving DecidableEq, Repr

/-- `http.ErrServerClosed`, the sentinel `ListenAndServe` returns after a
clean `Shutdown`. -/
def ErrServerClosed : String := "http: Server closed"

/-- Results of the external calls a `Run` invocation observes: the error
each monitor loop returns after cancellation, what `ListenAndServe`
returns, and what `Shutdown` returns (`none` = within the grace period). -/
structure RunEnv where
  powerErr : Option String
  thermalErr : Option String
  securityErr : Option String
  listenErr : Option String
  shutdownErr : Option String
deriving DecidableEq, Repr

/-- What a call to `Run` produces: the server state after the call, the
event trace in program order, the messages the background tasks log, and
the returned `error`. -/
structure RunOutcome where
  server : Server
  events : List REvent
  logs : List String
  error : Option String
deriving DecidableEq, Repr

/-- `Run` from the Go source.  Under the lock it rejects a second start;
otherwise it sets `started`, spawns the three monitor goroutines and the
HTTP listener goroutine, blocks on `<-ctx.Done()`, and performs one
`Shutdown` with a 30-second timeout, wrapping its error if any.  Each
goroutine logs the error of its external call: a monitor logs when its
loop returns non-nil, the listener logs unless it returned
`http.ErrServerClosed`. -/
def Run (s : Server) (env : RunEnv) : RunOutcome :=
  if s.started then
    ⟨s, [], [], some "server already started"⟩
  else
    let logs :=
      (match env.powerErr with
        | some e => ["Power monitoring error: " ++ e]
        | none => []) ++
      (match env.thermalErr with
        | some e => ["Thermal monitoring error: " ++ e]
        | none => []) ++
      (match env.securityErr with
        | some e => ["Security monitoring error: " ++ e]
        | none => []) ++
      (if env.listenErr = some ErrServerClosed then []
        else
          match env.listenErr with
          | some e => ["HTTP server error: " ++ e]
          | none => ["HTTP server error: <nil>"])
    let events : List REvent :=
      [.spawn .powerMonitor, .spawn .thermalMonitor, .spawn .securityMonitor,
        .spawn .httpListener, .waitCancel, .shutdownCall 30]
    match env.shutdownErr with
    | some e =>
        ⟨⟨s.deviceID, s.httpAddr, true⟩, events, logs,
          some ("error shutting down HTTP server: " ++ e)⟩
    | none =>
        ⟨⟨s.deviceID, s.httpAddr, true⟩, events, logs, none⟩

/-- The power monitor's snapshot (`power.PowerState` fields read by the
status handler). -/
structure PowerState where
  BatteryLevel : Int
  Charging : Bool
  Voltage : Int
deriving DecidableEq, Repr

/-- The thermal monitor's snapshot (`thermal.ThermalState` fields read by
the status handler). -/
structure ThermalState where
  CPUTemp : Int
  GPUTemp : Int
  AmbientTemp : Int
  FanSpeed : Int
  Throttled : Bool
deriving DecidableEq, Repr

/-- The security monitor's snapshot (`secure.TamperState` fields read by
the status handler). -/
structure TamperState where
  CaseOpen : Bool
  MotionDetected : Bool
  VoltageNormal : Bool
deriving DecidableEq, Repr

/-- The live snapshots the three monitors' `GetState` accessors return
during one aggregation pass. -/
structure MonitorStates where
  power : PowerState
  thermal : ThermalState
  security : TamperState
deriving DecidableEq, Repr

/-- `health.power` of `SystemStatus`. -/
structure PowerHealth where
  BatteryLevel : Int
  Charging : Bool
  Voltage : Int
deriving DecidableEq, Repr

/-- `health.thermal` of `SystemStatus`. -/
structure ThermalHealth where
  CPUTemp : Int
  GPUTemp : Int
  AmbientTemp : Int
  FanSpeed : Int
  Throttled : Bool
deriving DecidableEq, Repr

/-- `health.security` of `SystemStatus`. -/
structure SecurityHealth where
  CaseOpen : Bool
  MotionDetected : Bool
  VoltageNormal : Bool
deriving DecidableEq, Repr

/-- The `health` block of `SystemStatus`. -/
structure Health where
  Power : PowerHealth
  Thermal : ThermalHealth
  Security : SecurityHealth
deriving DecidableEq, Repr

/-- The `SystemStatus` struct the status handler encodes as JSON. -/
structure SystemStatus where
  DeviceID : String
  Time : Nat
  Health : Health
deriving DecidableEq, Repr

/-- An HTTP response body: the health probe's JSON object, a
`SystemStatus` JSON body, or the plain-text message of `http.Error`. -/
inductive Body
  | healthBody (status : String)
  | statusBody (st : SystemStatus)
  | errText (msg : String)
deriving DecidableEq, Repr

/-- An HTTP response: status code and body. -/
structure Response where
  code : Nat
  body : Body
deriving DecidableEq, Repr

/-- The synchronization-visible steps of the status handler: acquiring /
releasing the aggregator's read lock (`s.mux.RLock` / the deferred
`RUnlock`) and invoking one monitor's `GetState` accessor. -/
inductive AggEvent
  | rlock
  | runlock
  | getState (sub : Subsystem)
deriving DecidableEq, Repr

/-- `handleHealth` from the Go source: non-GET gets
`http.Error(w, "Method not allowed", 405)`; GET gets 200 with
`{"status":"ok"}`.  The handler reads no server or monitor state and
writes none, so it returns the server (and is given the monitor snapshots)
unchanged and untouched. -/
def handleHealth (s : Server) (_mons : MonitorStates) (method : String) :
    Server × Response :=
  if method ≠ "GET" then
    (s, ⟨405, .errText "Method not allowed"⟩)
  else
    (s, ⟨200, .healthBody "ok"⟩)

/-- `handleStatus` from the Go source: non-GET gets 405; GET takes the
read lock (released by `defer` at handler exit), reads the three monitor
snapshots via `GetState`, builds a `SystemStatus` stamped with
`time.Now()` (the input `now`), and encodes it with 200.  The third
component is the trace of lock and accessor events in program order. -/
def handleStatus (s : Server) (mons : MonitorStates) (now : Nat)
    (method : String) : Server × Response × List AggEvent :=
  if method ≠ "GET" then
    (s, ⟨405, .errText "Method not allowed"⟩, [])
  else
    let events : List AggEvent :=
      [.rlock, .getState .power, .getState .thermal, .getState .security,
        .runlock]
    let st : SystemStatus :=
      ⟨s.deviceID, now,
        ⟨⟨mons.power.BatteryLevel, mons.power.Charging, mons.power.Voltage⟩,
          ⟨mons.thermal.CPUTemp, mons.thermal.GPUTemp,
            mons.thermal.AmbientTemp, mons.thermal.FanSpeed,
            mons.thermal.Throttled⟩,
          ⟨mons.security.CaseOpen, mons.security.MotionDetected,
            mons.security.VoltageNormal⟩⟩⟩
    (s, ⟨200, .statusBody st⟩, events)

/-- The fixed order in which `New` invokes the subsystem constructors. -/
def constructionOrder : List Subsystem :=
  [.gpio, .power, .thermal, .security]

/-- The fixed tag with which `New` wraps a subsystem's construction error,
identifying the failing subsystem. -/
def subsystemFailMsg : Subsystem → String
  | .gpio => "failed to initialize GPIO: "
  | .power => "failed to initialize power management: "
  | .thermal => "failed to initialize thermal management: "
  | .security => "failed to initialize security management: "

/-- Scans a lock/accessor trace and records, for each `getState` event in
order, whether the aggregator's read lock is held when that accessor runs
(the boolean argument is whether the lock is held on entry). -/
def accessorsHeld : List AggEvent → Bool → List Bool
  | [], _ => []
  | AggEvent.rlock :: r, _ => accessorsHeld r true
  | AggEvent.runlock :: r, _ => accessorsHeld r false
  | AggEvent.getState _ :: r, held => held :: accessorsHeld r held

/-- An operation a caller can perform on a constructed server. -/
inductive Op
  | runOp (env : RunEnv)
  | healthOp (mons : MonitorStates) (method : String)
  | statusOp (mons : MonitorStates) (now : Nat) (method : String)

/-- The server state an operation leaves behind. -/
def applyOp (s : Server) : Op → Server
  | .runOp env => (Run s env).server
  | .healthOp mons m => (handleHealth s mons m).1
  | .statusOp mons now m => (handleStatus s mons now m).1

/-! Concrete instances used by the witnesses. -/

/-- A concrete server that has not been started. -/
def srv0 : Server := ⟨"test-device-001", ":8080", false⟩

/-- A concrete server that has been started. -/
def srv1 : Server := ⟨"test-device-001", ":8080", true⟩

/-- A run in which every external call is clean. -/
def envClean : RunEnv := ⟨none, none, none, some ErrServerClosed, none⟩

/-- A run with two failing monitor loops and a listener bind failure, but
a clean shutdown. -/
def envNoisy : RunEnv :=
  ⟨some "adc read failed", none, some "tamper sensor gone",
    some "listen tcp :8080: bind: address already in use", none⟩

/-- A run in which the HTTP listener's shutdown exceeded the grace
period. -/
def envTimeout : RunEnv :=
  ⟨none, none, none, some ErrServerClosed, some "context deadline exceeded"⟩

/-- Concrete monitor snapshots. -/
def mons0 : MonitorStates :=
  ⟨⟨80, true, 5⟩, ⟨45, 44, 25, 1200, false⟩, ⟨false, false, true⟩⟩

/-! Helper lemmas shared by the claim theorems. -/

theorem Run_of_started (s : Server) (env : RunEnv) (h : s.started = true) :
    Run s env = ⟨s, [], [], some "server already started"⟩ := by
  simp [Run, h]

theorem Run_server_of_not_started (s : Server) (env : RunEnv)
    (h : s.started = false) :
    (Run s env).server = ⟨s.deviceID, s.httpAddr, true⟩ := by
  cases hsd : env.shutdownErr <;> simp [Run, h, hsd]

theorem applyOp_keeps_started (s : Server) (op : Op)
    (h : s.started = true) : (applyOp s op).started = true := by
  cases op with
  | runOp env => simp [applyOp, Run_of_started s env h, h]
  | healthOp mons m =>
      by_cases hm : m = "GET" <;> simp [applyOp, handleHealth, hm, h]
  | statusOp mons now m =>
      by_cases hm : m = "GET" <;> simp [applyOp, handleStatus, hm, h]

theorem foldl_applyOp_keeps_started (ops : List Op) :
    ∀ t : Server, t.started = true → (ops.foldl applyOp t).started = true := by
  induction ops with
  | nil => intro t ht; exact ht
  | cons op rest ih =>
      intro t ht
      exact ih _ (applyOp_keeps_started t op ht)

/-! Claim theorems. -/

/-- Claim C1: `Run` blocks on the cancellation signal and only then
performs the shutdown sequence (in the event trace `waitCancel` precedes
the single `shutdownCall`), it returns nil exactly on a clean shutdown of
a not-yet-started instance, and a non-nil result arises only from the
instance being already started (the "already started" error) or from the
shutdown call failing (its wrapped error). -/
theorem Run_error_contract (s : Server) (env : RunEnv) :
    ((Run s env).error = none ↔ s.started = false ∧ env.shutdownErr = none) ∧
    (s.started = true → (Run s env).error = some "server already started") ∧
    (s.started = false →
      (Run s env).events =
        [.spawn .powerMonitor, .spawn .thermalMonitor, .spawn .securityMonitor,
          .spawn .httpListener, .waitCancel, .shutdownCall 30] ∧
      ∀ e, env.shutdownErr = some e →
        (Run s env).error = some ("error shutting down HTTP server: " ++ e)) := by
  rcases s with ⟨d, a, st⟩
  rcases env with ⟨p, t, c, l, sd⟩
  cases st <;> cases sd <;> simp [Run]

/-- Witness for C1 at a concrete not-started server whose shutdown call
exceeds the grace period. -/
theorem Run_error_contract_witness :
    (Run srv0 envTimeout).error =
      some ("error shutting down HTTP server: " ++ "context deadline exceeded") :=
  ((Run_error_contract srv0 envTimeout).2.2 rfl).2 "context deadline exceeded" rfl

/-- Claim C2: calling `Run` on an already-started server returns the
"already started" error and performs no side effects: no task is spawned
(in particular no listener bind is attempted), nothing is logged, and the
server state is returned unchanged. -/
theorem Run_duplicate_rejected (s : Server) (env : RunEnv)
    (h : s.started = true) :
    Run s env = ⟨s, [], [], some "server already started"⟩ := by
  simp [Run, h]

/-- Witness for C2 at a concrete started server. -/
theorem Run_duplicate_rejected_witness :
    Run srv1 envClean = ⟨srv1, [], [], some "server already started"⟩ :=
  Run_duplicate_rejected srv1 envClean rfl

/-- Claim C3: `New` invokes the constructors in the fixed order GPIO,
power, thermal, security (the GPIO hardware-access primitive first, the
invocation list always an initial segment of that order, so nothing runs
past the first failure), rejects an empty device identifier before any
constructor runs, wraps every construction failure in a message naming
the failing subsystem — which is the last constructor invoked — and
returns a server exactly when it returns no error. -/
theorem New_contract (cfg : Config) (env : BuildEnv) :
    ((New cfg env).server.isSome ↔ (New cfg env).error = none) ∧
    ((New cfg env).invoked =
      constructionOrder.take (New cfg env).invoked.length) ∧
    (cfg.DeviceID = "" →
      New cfg env = ⟨[], none, some "device ID is required"⟩) ∧
    (cfg.DeviceID ≠ "" →
      (New cfg env).invoked.head? = some Subsystem.gpio) ∧
    (∀ e, (New cfg env).error = some e →
      e = "device ID is required" ∨
      ∃ sub m, e = subsystemFailMsg sub ++ m ∧
        (New cfg env).invoked.getLast? = some sub) := by
  rcases cfg with ⟨d, a⟩
  rcases env with ⟨g, p, t, c⟩
  by_cases hd : d = ""
  · subst hd
    refine ⟨by simp [New], by simp [New], fun _ => by simp [New],
      fun hne => absurd rfl hne, ?_⟩
    intro e he
    simp [New] at he
    exact Or.inl he.symm
  · cases g with
    | some e =>
        refine ⟨by simp [New, hd], by simp [New, hd, constructionOrder],
          fun h => absurd h hd, fun _ => by simp [New, hd], ?_⟩
        intro e' he'
        simp [New, hd] at he'
        exact Or.inr ⟨.gpio, e, by simp [he', subsystemFailMsg],
          by simp [New, hd]⟩
    | none =>
      cases p with
      | some e =>
          refine ⟨by simp [New, hd], by simp [New, hd, constructionOrder],
            fun h => absurd h hd, fun _ => by simp [New, hd], ?_⟩
          intro e' he'
          simp [New, hd] at he'
          exact Or.inr ⟨.power, e, by simp [he', subsystemFailMsg],
            by simp [New, hd]⟩
      | none =>
        cases t with
        | some e =>
            refine ⟨by simp [New, hd], by simp [New, hd, constructionOrder],
              fun h => absurd h hd, fun _ => by simp [New, hd], ?_⟩
            intro e' he'
            simp [New, hd] at he'
            exact Or.inr ⟨.thermal, e, by simp [he', subsystemFailMsg],
              by simp [New, hd]⟩
        | none =>
          cases c with
          | some e =>
              refine ⟨by simp [New, hd], by simp [New, hd, constructionOrder],
                fun h => absurd h hd, fun _ => by simp [New, hd], ?_⟩
              intro e' he'
              simp [New, hd] at he'
              exact Or.inr ⟨.security, e, by simp [he', subsystemFailMsg],
                by simp [New, hd]⟩
          | none =>
              refine ⟨by simp [New, hd], by simp [New, hd, constructionOrder],
                fun h => absurd h hd, fun _ => by simp [New, hd], ?_⟩
              intro e' he'
              simp [New, hd] at he'

/-- Witness for C3: an empty device identifier is rejected with no
constructor invoked, and on a power-construction failure the invocation
list stops right after power. -/
theorem New_contract_witness :
    New ⟨"", ":8080"⟩ ⟨none, none, none, none⟩ =
      ⟨[], none, some "device ID is required"⟩ ∧
    (New ⟨"test-device-001", ":8080"⟩
        ⟨none, some "no battery sensor", none, none⟩).invoked.head? =
      some Subsystem.gpio :=
  ⟨(New_contract ⟨"", ":8080"⟩ ⟨none, none, none, none⟩).2.2.1 rfl,
    (New_contract ⟨"test-device-001", ":8080"⟩
      ⟨none, some "no battery sensor", none, none⟩).2.2.2.1 (by decide)⟩

/-- Claim C4: a `Run` call that starts performs exactly one `Shutdown`
attempt — never retried — with a 30-second timeout, and that attempt's
error, if any, becomes `Run`'s return error. -/
theorem Run_shutdown_single_attempt (s : Server) (env : RunEnv)
    (h : s.started = false) :
    (Run s env).events.filterMap
        (fun ev => match ev with
          | REvent.shutdownCall n => some n
          | _ => none) = [30] ∧
    (∀ e, env.shutdownErr = some e →
      (Run s env).error = some ("error shutting down HTTP server: " ++ e)) := by
  cases hsd : env.shutdownErr <;> simp [Run, h, hsd, List.filterMap]

/-- Witness for C4 at a concrete not-started server with a clean run. -/
theorem Run_shutdown_single_attempt_witness :
    (Run srv0 envClean).events.filterMap
        (fun ev => match ev with
          | REvent.shutdownCall n => some n
          | _ => none) = [30] :=
  (Run_shutdown_single_attempt srv0 envClean rfl).1

/-- Claim C5: each monitor loop's runtime error is logged by the
supervisor, all four tasks are spawned regardless of any such error, and
`Run`'s event trace and return error are unchanged when the monitor (and
listener) results are replaced by any others with the same shutdown
result — so no monitor runtime error ever makes `Run` return non-nil. -/
theorem Run_monitor_errors_isolated (s : Server) (env env' : RunEnv)
    (h : s.started = false)
    (hsd : env.shutdownErr = env'.shutdownErr) :
    (∀ e, env.powerErr = some e →
      ("Power monitoring error: " ++ e) ∈ (Run s env).logs) ∧
    (∀ e, env.thermalErr = some e →
      ("Thermal monitoring error: " ++ e) ∈ (Run s env).logs) ∧
    (∀ e, env.securityErr = some e →
      ("Security monitoring error: " ++ e) ∈ (Run s env).logs) ∧
    (Run s env).events =
      [.spawn .powerMonitor, .spawn .thermalMonitor, .spawn .securityMonitor,
        .spawn .httpListener, .waitCancel, .shutdownCall 30] ∧
    (Run s env).error = (Run s env').error := by
  refine ⟨?_, ?_, ?_, ?_, ?_⟩
  · intro e he
    cases hsd' : env.shutdownErr <;> simp [Run, h, he, hsd']
  · intro e he
    cases hsd' : env.shutdownErr <;> simp [Run, h, he, hsd']
  · intro e he
    cases hsd' : env.shutdownErr <;> simp [Run, h, he, hsd']
  · cases hsd' : env.shutdownErr <;> simp [Run, h, hsd']
  · rcases env with ⟨p, t, c, l, sd⟩
    rcases env' with ⟨p', t', c', l', sd'⟩
    simp only at hsd
    subst hsd
    cases sd <;> simp [Run, h]

/-- Witness for C5: with a failing power monitor, a failing security
monitor and a failing listener bind, the errors are logged and the return
error equals that of a fully clean run. -/
theorem Run_monitor_errors_isolated_witness :
    ("Power monitoring error: " ++ "adc read failed") ∈ (Run srv0 envNoisy).logs ∧
    (Run srv0 envNoisy).error = (Run srv0 envClean).error :=
  ⟨(Run_monitor_errors_isolated srv0 envNoisy envClean rfl rfl).1
      "adc read failed" rfl,
    (Run_monitor_errors_isolated srv0 envNoisy envClean rfl rfl).2.2.2.2⟩

/-- Claim C6: a GET of /api/v1/status yields 200 with a `SystemStatus`
body whose `device_id` is the server's configured identifier and whose
`time` is the (non-zero) timestamp taken during the aggregation pass; any
other method on that path yields 405. -/
theorem handleStatus_contract (s : Server) (mons : MonitorStates) (now : Nat)
    (hnow : 0 < now) :
    (∃ st : SystemStatus,
      (handleStatus s mons now "GET").2.1 = ⟨200, Body.statusBody st⟩ ∧
      st.DeviceID = s.deviceID ∧ st.Time = now ∧ st.Time ≠ 0) ∧
    (∀ m, m ≠ "GET" →
      (handleStatus s mons now m).2.1 =
        ⟨405, Body.errText "Method not allowed"⟩) := by
  constructor
  · refine ⟨⟨s.deviceID, now,
      ⟨⟨mons.power.BatteryLevel, mons.power.Charging, mons.power.Voltage⟩,
        ⟨mons.thermal.CPUTemp, mons.thermal.GPUTemp, mons.thermal.AmbientTemp,
          mons.thermal.FanSpeed, mons.thermal.Throttled⟩,
        ⟨mons.security.CaseOpen, mons.security.MotionDetected,
          mons.security.VoltageNormal⟩⟩⟩, ?_, rfl, rfl, ?_⟩
    · simp [handleStatus]
    · simp only []
      omega
  · intro m hm
    simp [handleStatus, hm]

/-- Witness for C6: a POST to the status path is answered 405. -/
theorem handleStatus_contract_witness :
    (handleStatus srv0 mons0 5 "POST").2.1 =
      ⟨405, Body.errText "Method not allowed"⟩ :=
  (handleStatus_contract srv0 mons0 5 (by decide)).2 "POST" (by decide)

/-- Claim C7: a GET of /health yields 200 with the body whose `status`
field is "ok", for every server and every monitor state (the handler
consults no subsystem state at all); any other method yields 405; in
both cases the server state is untouched. -/
theorem handleHealth_contract (s : Server) (mons : MonitorStates)
    (method : String) :
    handleHealth s mons "GET" = (s, ⟨200, Body.healthBody "ok"⟩) ∧
    (method ≠ "GET" →
      handleHealth s mons method =
        (s, ⟨405, Body.errText "Method not allowed"⟩)) ∧
    (handleHealth s mons method).1 = s ∧
    (∀ mons' : MonitorStates,
      handleHealth s mons method = handleHealth s mons' method) := by
  refine ⟨by simp [handleHealth], fun hm => by simp [handleHealth, hm],
    ?_, fun mons' => rfl⟩
  by_cases hm : method = "GET" <;> simp [handleHealth, hm]

/-- Witness for C7: a POST to /health is answered 405 with the server
state unchanged. -/
theorem handleHealth_contract_witness :
    handleHealth srv0 mons0 "POST" =
      (srv0, ⟨405, Body.errText "Method not allowed"⟩) :=
  (handleHealth_contract srv0 mons0 "POST").2.1 (by decide)

/-- Counterexample for claim C8: on this concrete aggregation pass the
scan of the handler's lock/accessor trace shows it is NOT the case that
every monitor snapshot accessor runs with the aggregator's read lock
released — the lock is held while the accessors run, refuting the claim
that it never is. -/
theorem handleStatus_lock_counterexample :
    ((accessorsHeld (handleStatus srv0 mons0 5 "GET").2.2 false).all
      (fun b => !b)) = false := by
  decide

/-- Claim C8 as amended: the status handler takes a single
aggregator-level read lock per pass, but holds it across the whole
aggregation: each of the three monitor snapshot accessors runs while the
lock is held, and the lock is released only at handler exit (the deferred
unlock is the last event of the trace). -/
theorem handleStatus_lock_held_across_accessors (s : Server)
    (mons : MonitorStates) (now : Nat) :
    accessorsHeld (handleStatus s mons now "GET").2.2 false =
      [true, true, true] ∧
    (handleStatus s mons now "GET").2.2.count AggEvent.rlock = 1 ∧
    (handleStatus s mons now "GET").2.2.count AggEvent.runlock = 1 ∧
    (handleStatus s mons now "GET").2.2.getLast? = some AggEvent.runlock := by
  refine ⟨?_, ?_, ?_, ?_⟩ <;> simp [handleStatus, accessorsHeld, List.count]

/-- Claim C9: once `Run` has been invoked on a not-yet-started server the
`started` flag is `true` and no subsequent operation — further `Run`
calls, health or status requests — ever resets it, so after any sequence
of operations (including a completed clean shutdown) another `Run` still
fails with the "already started" error. -/
theorem started_never_reset (s : Server) (env : RunEnv)
    (h : s.started = false) :
    ((Run s env).server).started = true ∧
    (∀ ops : List Op,
      (ops.foldl applyOp (Run s env).server).started = true ∧
      ∀ env' : RunEnv,
        (Run (ops.foldl applyOp (Run s env).server) env').error =
          some "server already started") := by
  have h1 : ((Run s env).server).started = true := by
    rw [Run_server_of_not_started s env h]
  refine ⟨h1, fun ops => ?_⟩
  have h2 := foldl_applyOp_keeps_started ops (Run s env).server h1
  exact ⟨h2, fun env' => by
    rw [Run_of_started (ops.foldl applyOp (Run s env).server) env' h2]⟩

/-- Witness for C9: after a clean run at a concrete server, a health
request leaves `started` set and a further `Run` is rejected. -/
theorem started_never_reset_witness :
    ([Op.healthOp mons0 "GET"].foldl applyOp
        (Run srv0 envClean).server).started = true ∧
    (Run ([Op.healthOp mons0 "GET"].foldl applyOp
        (Run srv0 envClean).server) envClean).error =
      some "server already started" :=
  ⟨((started_never_reset srv0 envClean rfl).2 [Op.healthOp mons0 "GET"]).1,
    ((started_never_reset srv0 envClean rfl).2 [Op.healthOp mons0 "GET"]).2
      envClean⟩

/-- Claim C10: a `ListenAndServe` failure (for example a bind error) is
only logged inside the listener's background task and never surfaces
through `Run`'s return value: the event trace — including blocking on
cancellation — and the return error are insensitive to the listener
result, and with a clean shutdown `Run` still returns nil even though the
listener never served. -/
theorem Run_listen_error_not_surfaced (s : Server) (env : RunEnv)
    (h : s.started = false) :
    (∀ e, env.listenErr = some e → e ≠ ErrServerClosed →
      ("HTTP server error: " ++ e) ∈ (Run s env).logs) ∧
    (env.shutdownErr = none → (Run s env).error = none) ∧
    (∀ l' : Option String,
      (Run s env).error =
        (Run s ⟨env.powerErr, env.thermalErr, env.securityErr, l',
          env.shutdownErr⟩).error ∧
      (Run s env).events =
        (Run s ⟨env.powerErr, env.thermalErr, env.securityErr, l',
          env.shutdownErr⟩).events) := by
  refine ⟨?_, ?_, ?_⟩
  · intro e he hne
    cases hsd : env.shutdownErr <;> simp [Run, h, he, hne, hsd]
  · intro hsd
    simp [Run, h, hsd]
  · intro l'
    cases hsd : env.shutdownErr <;> simp [Run, h, hsd]

/-- Witness for C10: a concrete bind failure is logged and the run still
returns nil. -/
theorem Run_listen_error_not_surfaced_witness :
    ("HTTP server error: " ++ "listen tcp :8080: bind: address already in use")
        ∈ (Run srv0 envNoisy).logs ∧
    (Run srv0 envNoisy).error = none :=
  ⟨(Run_listen_error_not_surfaced srv0 envNoisy rfl).1
      "listen tcp :8080: bind: address already in use" rfl (by decide),
    (Run_listen_error_not_surfaced srv0 envNoisy rfl).2.1 rfl⟩

end FleetMetal
